import Mathlib

/-!
A shallow embedding of `src/inference-engine/include/details/os/win_shared_object_loader.h`:
the WinAPI-compatible `SharedObjectLoader` class of InferenceEngine.

Modelling choices:
* An OS module handle (`HMODULE`) is a `Nat`; `0` models `NULL`.
* The only process-global OS state the unit touches is the per-application DLL
  search directory set by `SetDllDirectory`; it is an `Option String`
  (`none` = never configured / `NULL`, `some s` = configured to `s`).
* `GetDllDirectory(0, NULL)` reports the required buffer size in characters,
  terminating null included: `0` when no directory was configured, `length + 1`
  when one was (so both `none` and `some ""` report at most `1`, matching the
  source comment that the two cases are not usefully distinguishable by the
  `<= 1` test).
* The behaviour of the remaining OS primitives (`LoadLibraryA`,
  `GetProcAddress`, `GetLastError`, `_getcwd`) is a parameter `OSEnv`.
* Every OS primitive invocation is recorded in a trace (`List OSCall`) so that
  claims about which calls happen, and in which order, are statable.
* `THROW_IE_EXCEPTION << ...` builds a message string; exceptions are modelled
  as `Except String` carrying that message, assembled exactly as the source
  streams it.
* `&lpBuffer.front()` on an empty `std::vector` is undefined behaviour; the
  function modelling `IncludePluginDirectoryA` returns `Option`, with `none`
  for that (out-of-bounds) case.
-/

instance exceptDecEq {ε α : Type} [DecidableEq ε] [DecidableEq α] :
    DecidableEq (Except ε α) := fun a b =>
  match a, b with
  | .error e1, .error e2 =>
    if h : e1 = e2 then isTrue (by rw [h]) else
      isFalse (fun hc => h (by cases hc; rfl))
  | .error _, .ok _ => isFalse (fun hc => by cases hc)
  | .ok _, .error _ => isFalse (fun hc => by cases hc)
  | .ok a1, .ok a2 =>
    if h : a1 = a2 then isTrue (by rw [h]) else
      isFalse (fun hc => h (by cases hc; rfl))

namespace InferenceEngine

/-- An OS module handle (`HMODULE`); `0` models `NULL`. -/
abbrev Handle := Nat

/-- One invocation of an OS primitive, as recorded in a call trace. -/
inductive OSCall where
  | getDllDirLen : OSCall
  | getDllDir : Nat → OSCall
  | setDllDir : String → OSCall
  | loadLibrary : String → OSCall
  | getLastError : OSCall
  | getCwd : OSCall
  | getProcAddress : Handle → String → OSCall
  | freeLibrary : Handle → OSCall
  deriving DecidableEq, Repr

/-- The process-global OS state the unit manipulates: the per-application DLL
search directory (`SetDllDirectory` / `GetDllDirectory`). -/
structure OSState where
  dllDir : Option String
  deriving DecidableEq, Repr

/-- The behaviour of the OS primitives the loader calls whose results depend on
the outside world (file system, loaded modules). `load d p` is the handle
`LoadLibraryA(p)` returns when the DLL search directory is `d` (`0` = `NULL`);
`loadErr` is what `GetLastError()` reports after a failed load; `procAddr h s`
is the address `GetProcAddress(h, s)` returns (`0` = `NULL`); `procErr` is what
`GetLastError()` reports after a failed resolution; `cwd` is what `_getcwd`
reports. -/
structure OSEnv where
  load : Option String → String → Handle
  loadErr : Nat
  procAddr : Handle → String → Nat
  procErr : Nat
  cwd : String

/-- `GetDllDirectory(0, NULL)`: required buffer size in characters, terminating
null included; `0` when no per-application directory was ever configured. -/
def getDllDirectoryLen (d : Option String) : Nat :=
  match d with
  | none => 0
  | some s => s.length + 1

/-- `SharedObjectLoader::ExcludeCurrentDirectory`:
`if (GetDllDirectory(0, NULL) <= 1) SetDllDirectory(TEXT(""));` -/
def ExcludeCurrentDirectory (st : OSState) : OSState × List OSCall :=
  if getDllDirectoryLen st.dllDir ≤ 1 then
    (⟨some ""⟩, [.getDllDirLen, .setDllDir ""])
  else
    (st, [.getDllDirLen])

/-- `static const char kPathSeparator = '\\';` -/
def kPathSeparator : Char := '\\'

/-- Index of the first occurrence of `kPathSeparator`, or `none`.
`strchr(path, kPathSeparator)` returns a pointer to the FIRST occurrence; the
index is the pointer offset `std::distance(path, pos)`. -/
def firstSepIdx : List Char → Option Nat
  | [] => none
  | c :: cs =>
    if c = kPathSeparator then some 0 else (firstSepIdx cs).map (· + 1)

/-- Index of the last occurrence of `kPathSeparator`, or `none`.
`wcsrchr(path, kPathSeparator)` returns a pointer to the LAST occurrence. -/
def lastSepIdx : List Char → Option Nat
  | [] => none
  | c :: cs =>
    match lastSepIdx cs with
    | some i => some (i + 1)
    | none => if c = kPathSeparator then some 0 else none

/-- `SharedObjectLoader::FindLastPathSeparatorA`: despite its name, the source
calls `strchr`, which finds the FIRST occurrence of `kPathSeparator`. -/
def FindLastPathSeparatorA (path : String) : Option Nat :=
  firstSepIdx path.toList

/-- `SharedObjectLoader::GetDirnameA`: the whole path when no separator is
found, otherwise `original.substr(0, std::distance(path, pos))`. -/
def GetDirnameA (path : String) : String :=
  match FindLastPathSeparatorA path with
  | none => path
  | some i => ⟨path.toList.take i⟩

/-- `SharedObjectLoader::FindLastPathSeparatorW`: calls `wcsrchr`, which finds
the LAST occurrence of `kPathSeparator`. -/
def FindLastPathSeparatorW (path : String) : Option Nat :=
  lastSepIdx path.toList

/-- `SharedObjectLoader::GetDirnameW`: the whole path when no separator is
found, otherwise the prefix up to the last separator. -/
def GetDirnameW (path : String) : String :=
  match FindLastPathSeparatorW path with
  | none => path
  | some i => ⟨path.toList.take i⟩

/-- `SharedObjectLoader::IncludePluginDirectoryA`. Reads the current DLL search
directory into `lpBuffer` (sized by `GetDllDirectoryW(0, nullptr)`), sets the
search directory to `GetDirnameA(path)` when that dirname is nonempty, and
returns the saved previous directory. `none` models the undefined behaviour of
`&lpBuffer.front()` when `nBufferLength` is `0` (empty buffer). -/
def IncludePluginDirectoryA (path : String) (st : OSState) :
    Option (String × OSState × List OSCall) :=
  let nBufferLength := getDllDirectoryLen st.dllDir
  if nBufferLength = 0 then
    none
  else
    let oldDir := match st.dllDir with
      | none => ""
      | some s => s
    let dirname := GetDirnameA path
    if dirname = "" then
      some (oldDir, st, [.getDllDirLen, .getDllDir nBufferLength])
    else
      some (oldDir, ⟨some dirname⟩,
        [.getDllDirLen, .getDllDir nBufferLength, .setDllDir dirname])

/-- The loader object: its sole data member is `HMODULE shared_object`. -/
structure SharedObjectLoader where
  shared_object : Handle
  deriving DecidableEq, Repr

/-- The message streamed by `THROW_IE_EXCEPTION` in the narrow constructor:
`"Cannot load library '" << pluginName << "': " << GetLastError() << " from cwd: " << _getcwd(...)`. -/
def loadErrorMsg (env : OSEnv) (pluginName : String) : String :=
  "Cannot load library '" ++ pluginName ++ "': " ++ toString env.loadErr
    ++ " from cwd: " ++ env.cwd

/-- `SharedObjectLoader::SharedObjectLoader(LPCSTR pluginName)`:
`ExcludeCurrentDirectory(); auto oldDir = IncludePluginDirectoryA(pluginName);
shared_object = LoadLibraryA(pluginName); SetDllDirectoryA(oldDir.c_str());
if (!shared_object) THROW_IE_EXCEPTION << ...;`
Returns the constructed loader or the thrown message, the final OS state, and
the trace of OS calls; `none` models reaching the undefined behaviour inside
`IncludePluginDirectoryA`. -/
def SharedObjectLoader.construct (env : OSEnv) (pluginName : String)
    (st : OSState) :
    Option (Except String SharedObjectLoader × OSState × List OSCall) :=
  match IncludePluginDirectoryA pluginName (ExcludeCurrentDirectory st).1 with
  | none => none
  | some (oldDir, st2, tr2) =>
    if env.load st2.dllDir pluginName = 0 then
      some (.error (loadErrorMsg env pluginName), ⟨some oldDir⟩,
        (ExcludeCurrentDirectory st).2 ++ tr2
          ++ [.loadLibrary pluginName, .setDllDir oldDir, .getLastError, .getCwd])
    else
      some (.ok ⟨env.load st2.dllDir pluginName⟩, ⟨some oldDir⟩,
        (ExcludeCurrentDirectory st).2 ++ tr2
          ++ [.loadLibrary pluginName, .setDllDir oldDir])

/-- `SharedObjectLoader::get_symbol(const char* symbolName) const`. The method
is `const` and touches no process-global state; it returns the resolved
address or the thrown message, together with the (unchanged) loader and OS
state. -/
def SharedObjectLoader.get_symbol (env : OSEnv) (l : SharedObjectLoader)
    (symbolName : String) (st : OSState) :
    Except String Nat × SharedObjectLoader × OSState :=
  if l.shared_object = 0 then
    (.error ("Cannot get '" ++ symbolName ++ "' content from unknown library!"),
      l, st)
  else if env.procAddr l.shared_object symbolName = 0 then
    (.error ("GetProcAddress cannot locate method '" ++ symbolName ++ "': "
      ++ toString env.procErr), l, st)
  else
    (.ok (env.procAddr l.shared_object symbolName), l, st)

/-- `FreeLibrary(hModule)`: returns whether it succeeded (`FreeLibrary(NULL)`
fails, returning `FALSE`, without crashing) and leaves the DLL-search-directory
state untouched. -/
def freeLibraryPrim (h : Handle) (st : OSState) : Bool × OSState :=
  (decide (h ≠ 0), st)

/-- `SharedObjectLoader::~SharedObjectLoader()`: `FreeLibrary(shared_object);`
— unconditionally, whatever the stored handle is. -/
def SharedObjectLoader.destructor (l : SharedObjectLoader) (st : OSState) :
    OSState × List OSCall :=
  ((freeLibraryPrim l.shared_object st).2, [.freeLibrary l.shared_object])

/-- The DLL search directory in effect at the moment `LoadLibraryA` runs inside
the narrow constructor. -/
def loadDirA (pluginName : String) (st : OSState) : Option String :=
  if GetDirnameA pluginName = "" then
    (ExcludeCurrentDirectory st).1.dllDir
  else
    some (GetDirnameA pluginName)

/-- The DLL search directory the exclusion step leaves behind: the empty
string when nothing (or the empty string) was configured, otherwise the
already-configured directory. -/
def excludedDir (st : OSState) : String :=
  if getDllDirectoryLen st.dllDir ≤ 1 then "" else st.dllDir.getD ""

/-- Recognizes a `FreeLibrary` invocation in a call trace. -/
def isFreeLibraryCall : OSCall → Bool
  | .freeLibrary _ => true
  | _ => false

/-- A concrete OS environment in which every load succeeds with handle `7` and
every symbol resolves to address `42`. -/
def envProbe : OSEnv := ⟨fun _ _ => 7, 0, fun _ _ => 42, 0, "C:\\work"⟩

/-- A concrete OS environment in which every load fails and `GetLastError`
reports `126` (`ERROR_MOD_NOT_FOUND`), as for a nonexistent path. -/
def envLoadFail : OSEnv := ⟨fun _ _ => 0, 126, fun _ _ => 0, 127, "C:\\work"⟩

lemma ExcludeCurrentDirectory_fst (st : OSState) :
    (ExcludeCurrentDirectory st).1 = ⟨some (excludedDir st)⟩ := by
  obtain ⟨d⟩ := st
  by_cases h : getDllDirectoryLen d ≤ 1
  · unfold ExcludeCurrentDirectory excludedDir
    rw [if_pos h, if_pos h]
  · unfold ExcludeCurrentDirectory excludedDir
    rw [if_neg h, if_neg h]
    cases hd : d with
    | none => exfalso; apply h; rw [hd]; decide
    | some v => rfl

lemma exclude_fixed (s : String) :
    (ExcludeCurrentDirectory ⟨some s⟩).1 = ⟨some s⟩ := by
  unfold ExcludeCurrentDirectory
  by_cases h : getDllDirectoryLen (some s) ≤ 1
  · rw [if_pos h]
    have hlen : s.length = 0 := by
      simp only [getDllDirectoryLen] at h
      omega
    obtain ⟨l⟩ := s
    cases l with
    | nil => rfl
    | cons c cs => simp [String.length] at hlen
  · rw [if_neg h]

lemma IncludePluginDirectoryA_some (path s : String) :
    IncludePluginDirectoryA path ⟨some s⟩ =
      if GetDirnameA path = "" then
        some (s, ⟨some s⟩, [.getDllDirLen, .getDllDir (s.length + 1)])
      else
        some (s, ⟨some (GetDirnameA path)⟩,
          [.getDllDirLen, .getDllDir (s.length + 1),
           .setDllDir (GetDirnameA path)]) := rfl

lemma firstSepIdx_eq_none (l : List Char) (h : kPathSeparator ∉ l) :
    firstSepIdx l = none := by
  induction l with
  | nil => rfl
  | cons c cs ih =>
    have hc : ¬ (c = kPathSeparator) := by
      rintro rfl
      exact h (List.mem_cons_self _ _)
    have hcs : kPathSeparator ∉ cs := fun hm => h (List.mem_cons_of_mem _ hm)
    unfold firstSepIdx
    rw [if_neg hc, ih hcs]
    rfl

lemma construct_eq (env : OSEnv) (path : String) (st : OSState) :
    ∃ tr : List OSCall,
      SharedObjectLoader.construct env path st =
        some ((if env.load (loadDirA path st) path = 0
                then Except.error (loadErrorMsg env path)
                else Except.ok ⟨env.load (loadDirA path st) path⟩),
              ⟨some (excludedDir st)⟩, tr) := by
  have hex := ExcludeCurrentDirectory_fst st
  by_cases hd : GetDirnameA path = ""
  · have hld : loadDirA path st = some (excludedDir st) := by
      unfold loadDirA
      rw [if_pos hd, hex]
    refine ⟨?_, ?_⟩
    · exact (ExcludeCurrentDirectory st).2 ++
        [.getDllDirLen, .getDllDir ((excludedDir st).length + 1)] ++
        (if env.load (loadDirA path st) path = 0
          then [.loadLibrary path, .setDllDir (excludedDir st),
            .getLastError, .getCwd]
          else [.loadLibrary path, .setDllDir (excludedDir st)])
    · unfold SharedObjectLoader.construct
      rw [hex, IncludePluginDirectoryA_some, if_pos hd]
      simp only [hld]
      by_cases h0 : env.load (some (excludedDir st)) path = 0
      · rw [if_pos h0, if_pos h0, if_pos h0]
      · rw [if_neg h0, if_neg h0, if_neg h0]
  · have hld : loadDirA path st = some (GetDirnameA path) := by
      unfold loadDirA
      rw [if_neg hd]
    refine ⟨?_, ?_⟩
    · exact (ExcludeCurrentDirectory st).2 ++
        [.getDllDirLen, .getDllDir ((excludedDir st).length + 1),
         .setDllDir (GetDirnameA path)] ++
        (if env.load (loadDirA path st) path = 0
          then [.loadLibrary path, .setDllDir (excludedDir st),
            .getLastError, .getCwd]
          else [.loadLibrary path, .setDllDir (excludedDir st)])
    · unfold SharedObjectLoader.construct
      rw [hex, IncludePluginDirectoryA_some, if_neg hd]
      simp only [hld]
      by_cases h0 : env.load (some (GetDirnameA path)) path = 0
      · rw [if_pos h0, if_pos h0, if_pos h0]
      · rw [if_neg h0, if_neg h0, if_neg h0]

/-- C1: REFUTED for the narrow constructor — the directory passed to the
set-search-directory primitive before the load primitive is the prefix of the
path up to its FIRST backslash, not its last: `FindLastPathSeparatorA` calls
`strchr`, so on `C:\dir\lib.dll` the constructor sets the search directory to
`C:` rather than `C:\dir`. -/
theorem construct_sets_first_separator_dirname :
    GetDirnameA "C:\\dir\\lib.dll" = "C:" ∧
    "C:" ≠ "C:\\dir" ∧
    SharedObjectLoader.construct envProbe "C:\\dir\\lib.dll" ⟨none⟩ =
      some (.ok ⟨7⟩, ⟨some ""⟩,
        [.getDllDirLen, .setDllDir "", .getDllDirLen, .getDllDir 1,
         .setDllDir "C:", .loadLibrary "C:\\dir\\lib.dll", .setDllDir ""]) := by
  decide

/-- C2: the narrow constructor throws exactly when `LoadLibraryA` returns a
null handle; the thrown message is built from the path, the OS error code
reported by `GetLastError`, and the current working directory; and whenever
the path is loadable under no search directory (a nonexistent path) while the
OS reports a non-zero error code for the failed load, the carried code is that
non-zero code. -/
theorem construct_throws_iff_null_handle (env : OSEnv) (path : String)
    (st : OSState) (r : Except String SharedObjectLoader) (st' : OSState)
    (tr : List OSCall)
    (h : SharedObjectLoader.construct env path st = some (r, st', tr)) :
    ((∃ msg, r = Except.error msg) ↔ env.load (loadDirA path st) path = 0) ∧
    (env.load (loadDirA path st) path = 0 →
      r = Except.error ("Cannot load library '" ++ path ++ "': "
        ++ toString env.loadErr ++ " from cwd: " ++ env.cwd)) ∧
    ((∀ d, env.load d path = 0) → env.loadErr ≠ 0 →
      ∃ code, code ≠ 0 ∧ r = Except.error ("Cannot load library '" ++ path
        ++ "': " ++ toString code ++ " from cwd: " ++ env.cwd)) := by
  obtain ⟨tr0, heq⟩ := construct_eq env path st
  rw [heq] at h
  simp only [Option.some.injEq, Prod.mk.injEq] at h
  obtain ⟨h1, _, _⟩ := h
  by_cases h0 : env.load (loadDirA path st) path = 0
  · rw [if_pos h0] at h1
    refine ⟨⟨fun _ => h0, fun _ => ⟨loadErrorMsg env path, h1.symm⟩⟩,
      fun _ => ?_, fun _ hcode => ⟨env.loadErr, hcode, ?_⟩⟩
    · rw [← h1]
      rfl
    · rw [← h1]
      rfl
  · rw [if_neg h0] at h1
    refine ⟨⟨fun hmsg => ?_, fun hl => absurd hl h0⟩,
      fun hl => absurd hl h0, fun hall _ => absurd (hall (loadDirA path st)) h0⟩
    obtain ⟨msg, hmsg⟩ := hmsg
    rw [← h1] at hmsg
    exact absurd hmsg (by simp)

/-- Witness for C2: in the concrete always-failing environment `envLoadFail`,
constructing from `C:\miss\ing.dll` throws the expected message carrying the
non-zero code `126` and the working directory. -/
theorem construct_throws_iff_null_handle_witness :
    (∀ d, envLoadFail.load d "C:\\miss\\ing.dll" = 0) ∧
    envLoadFail.loadErr ≠ 0 ∧
    ∃ code, code ≠ 0 ∧
      (Except.error "Cannot load library 'C:\\miss\\ing.dll': 126 from cwd: C:\\work"
        : Except String SharedObjectLoader) =
      Except.error ("Cannot load library '" ++ "C:\\miss\\ing.dll"
        ++ "': " ++ toString code ++ " from cwd: " ++ "C:\\work") := by
  refine ⟨fun d => rfl, by decide, ?_⟩
  exact (construct_throws_iff_null_handle envLoadFail "C:\\miss\\ing.dll" ⟨none⟩
    (Except.error "Cannot load library 'C:\\miss\\ing.dll': 126 from cwd: C:\\work")
    ⟨some ""⟩
    [.getDllDirLen, .setDllDir "", .getDllDirLen, .getDllDir 1,
     .setDllDir "C:", .loadLibrary "C:\\miss\\ing.dll", .setDllDir "",
     .getLastError, .getCwd]
    (by decide)).2.2 (fun d => rfl) (by decide)

/-- C3: `get_symbol` throws when the stored handle is null; otherwise, when
`GetProcAddress` returns null it throws a message carrying the OS error code;
otherwise it returns the non-null address `GetProcAddress` produced; in every
case the loader and the process-global search-directory state are left
unchanged. -/
theorem get_symbol_cases (env : OSEnv) (l : SharedObjectLoader) (sym : String)
    (st : OSState) :
    (l.shared_object = 0 →
      SharedObjectLoader.get_symbol env l sym st =
        (Except.error ("Cannot get '" ++ sym
          ++ "' content from unknown library!"), l, st)) ∧
    (l.shared_object ≠ 0 → env.procAddr l.shared_object sym = 0 →
      SharedObjectLoader.get_symbol env l sym st =
        (Except.error ("GetProcAddress cannot locate method '" ++ sym
          ++ "': " ++ toString env.procErr), l, st)) ∧
    (l.shared_object ≠ 0 → env.procAddr l.shared_object sym ≠ 0 →
      SharedObjectLoader.get_symbol env l sym st =
        (Except.ok (env.procAddr l.shared_object sym), l, st)) ∧
    (SharedObjectLoader.get_symbol env l sym st).2.1 = l ∧
    (SharedObjectLoader.get_symbol env l sym st).2.2 = st := by
  unfold SharedObjectLoader.get_symbol
  by_cases hz : l.shared_object = 0
  · rw [if_pos hz]
    exact ⟨fun _ => rfl, fun hnz => absurd hz hnz, fun hnz => absurd hz hnz,
      rfl, rfl⟩
  · rw [if_neg hz]
    by_cases hp : env.procAddr l.shared_object sym = 0
    · rw [if_pos hp]
      exact ⟨fun hzz => absurd hzz hz, fun _ _ => rfl,
        fun _ hpn => absurd hp hpn, rfl, rfl⟩
    · rw [if_neg hp]
      exact ⟨fun hzz => absurd hzz hz, fun _ hpz => absurd hpz hp,
        fun _ _ => rfl, rfl, rfl⟩

/-- Witness for C3: with handle `7` in the environment `envProbe`, resolving
`foo` succeeds with the non-null address `42` and changes nothing. -/
theorem get_symbol_cases_witness :
    SharedObjectLoader.get_symbol envProbe ⟨7⟩ "foo" ⟨some ""⟩ =
      (Except.ok 42, ⟨7⟩, ⟨some ""⟩) :=
  (get_symbol_cases envProbe ⟨7⟩ "foo" ⟨some ""⟩).2.2.1 (by decide) (by decide)

/-- C4: whether construction succeeds or throws, the final DLL search
directory equals its value immediately after the current-directory-exclusion
step, i.e. immediately before the directory-augmentation step (the saved
previous directory is restored on both paths). -/
theorem construct_restores_search_directory (env : OSEnv) (path : String)
    (st : OSState) (r : Except String SharedObjectLoader) (st' : OSState)
    (tr : List OSCall)
    (h : SharedObjectLoader.construct env path st = some (r, st', tr)) :
    st'.dllDir = (ExcludeCurrentDirectory st).1.dllDir := by
  obtain ⟨tr0, heq⟩ := construct_eq env path st
  rw [heq] at h
  simp only [Option.some.injEq, Prod.mk.injEq] at h
  rw [← h.2.1, ExcludeCurrentDirectory_fst]

/-- Witness for C4: a concrete successful construction restores the search
directory to its post-exclusion value. -/
theorem construct_restores_search_directory_witness :
    (⟨some ""⟩ : OSState).dllDir = (ExcludeCurrentDirectory ⟨none⟩).1.dllDir :=
  construct_restores_search_directory envProbe "a.dll" ⟨none⟩ (.ok ⟨7⟩)
    ⟨some ""⟩
    [.getDllDirLen, .setDllDir "", .getDllDirLen, .getDllDir 1,
     .setDllDir "a.dll", .loadLibrary "a.dll", .setDllDir ""]
    (by decide)

/-- C5 amended: the exclusion step is idempotent in its effect on the
search-directory state, and it calls `SetDllDirectory("")` exactly when the
reported per-application search-directory length is at most 1 (never
configured, or configured as the empty string by a previous run); a second
`Construct` therefore repeats the `SetDllDirectory("")` call but leaves the
exclusion state identical to after the first run. -/
theorem exclude_idempotent_in_state (st : OSState) :
    (ExcludeCurrentDirectory (ExcludeCurrentDirectory st).1).1 =
      (ExcludeCurrentDirectory st).1 ∧
    (OSCall.setDllDir "" ∈ (ExcludeCurrentDirectory st).2 ↔
      getDllDirectoryLen st.dllDir ≤ 1) := by
  constructor
  · rw [ExcludeCurrentDirectory_fst st]
    exact exclude_fixed _
  · unfold ExcludeCurrentDirectory
    by_cases h : getDllDirectoryLen st.dllDir ≤ 1
    · rw [if_pos h]
      simpa using h
    · rw [if_neg h]
      simp [h]

/-- C5 counterexample: after a first `Construct` the per-application search
directory is configured (to the empty string), yet the exclusion step of a
second `Construct` still invokes the set-search-directory primitive with the
empty string — the call is not restricted to the not-yet-configured case. -/
theorem exclusion_reruns_when_configured :
    SharedObjectLoader.construct envProbe "C:\\a\\b.dll" ⟨none⟩ =
      some (.ok ⟨7⟩, ⟨some ""⟩,
        [.getDllDirLen, .setDllDir "", .getDllDirLen, .getDllDir 1,
         .setDllDir "C:", .loadLibrary "C:\\a\\b.dll", .setDllDir ""]) ∧
    (OSState.mk (some "")).dllDir ≠ none ∧
    (ExcludeCurrentDirectory ⟨some ""⟩).2 =
      [.getDllDirLen, .setDllDir ""] := by
  decide

/-- C6: a successful construction stores a non-null handle, and the only
public operation, `get_symbol`, never alters the loader, so the handle stays
non-null until destruction; a failed construction exits by exception (an
`Except.error` result), so no loader with a null handle is observable. -/
theorem construct_success_handle_nonnull (env : OSEnv) (path : String)
    (st : OSState) (l : SharedObjectLoader) (st' : OSState) (tr : List OSCall)
    (h : SharedObjectLoader.construct env path st = some (.ok l, st', tr)) :
    l.shared_object ≠ 0 ∧
    (∀ env2 : OSEnv, ∀ sym : String, ∀ st2 : OSState,
      (SharedObjectLoader.get_symbol env2 l sym st2).2.1 = l) := by
  obtain ⟨tr0, heq⟩ := construct_eq env path st
  rw [heq] at h
  simp only [Option.some.injEq, Prod.mk.injEq] at h
  obtain ⟨h1, _, _⟩ := h
  constructor
  · by_cases h0 : env.load (loadDirA path st) path = 0
    · rw [if_pos h0] at h1
      exact absurd h1 (by simp)
    · rw [if_neg h0] at h1
      have hl : (⟨env.load (loadDirA path st) path⟩ : SharedObjectLoader) = l :=
        Except.ok.inj h1
      rw [← hl]
      exact h0
  · intro env2 sym st2
    unfold SharedObjectLoader.get_symbol
    by_cases hz : l.shared_object = 0
    · rw [if_pos hz]
    · rw [if_neg hz]
      by_cases hp : env2.procAddr l.shared_object sym = 0
      · rw [if_pos hp]
      · rw [if_neg hp]

/-- Witness for C6: a concrete successful construction yields the non-null
handle `7`, untouched by a subsequent `get_symbol`. -/
theorem construct_success_handle_nonnull_witness :
    (7 : Handle) ≠ 0 ∧
    (SharedObjectLoader.get_symbol envProbe ⟨7⟩ "foo" ⟨some ""⟩).2.1 = ⟨7⟩ := by
  have h := construct_success_handle_nonnull envProbe "a.dll" ⟨none⟩ ⟨7⟩
    ⟨some ""⟩
    [.getDllDirLen, .setDllDir "", .getDllDirLen, .getDllDir 1,
     .setDllDir "a.dll", .loadLibrary "a.dll", .setDllDir ""]
    (by decide)
  exact ⟨h.1, h.2 envProbe "foo" ⟨some ""⟩⟩

/-- C7: the destructor invokes the OS unload primitive `FreeLibrary` exactly
once, on the stored handle, and does not touch the search-directory state;
when the handle was never acquired (null), the modelled `FreeLibrary` call
merely reports failure (`false`) without any further effect. -/
theorem destructor_frees_exactly_once (l : SharedObjectLoader) (st : OSState) :
    SharedObjectLoader.destructor l st = (st, [.freeLibrary l.shared_object]) ∧
    (SharedObjectLoader.destructor l st).2.countP isFreeLibraryCall = 1 ∧
    (l.shared_object = 0 → freeLibraryPrim l.shared_object st = (false, st)) := by
  refine ⟨rfl, rfl, fun h => ?_⟩
  unfold freeLibraryPrim
  rw [h]
  rfl

/-- Witness for C7: releasing a never-acquired (null) handle is a safe no-op. -/
theorem destructor_frees_exactly_once_witness :
    freeLibraryPrim (0 : Handle) ⟨some ""⟩ = (false, ⟨some ""⟩) :=
  (destructor_frees_exactly_once ⟨0⟩ ⟨some ""⟩).2.2 rfl

/-- C8: REFUTED as stated — the narrow and wide dirname computations diverge:
on `a\b\c.so` the narrow `GetDirnameA` (via `strchr`, first separator) yields
`a` while the wide `GetDirnameW` (via `wcsrchr`, last separator) yields `a\b`,
so the two constructors pass different directories to the
set-search-directory primitive. -/
theorem dirname_narrow_wide_divergence :
    FindLastPathSeparatorA "a\\b\\c.so" = some 1 ∧
    FindLastPathSeparatorW "a\\b\\c.so" = some 3 ∧
    GetDirnameA "a\\b\\c.so" = "a" ∧
    GetDirnameW "a\\b\\c.so" = "a\\b" ∧
    GetDirnameA "a\\b\\c.so" ≠ GetDirnameW "a\\b\\c.so" := by
  decide

/-- C9: for a path without any backslash separator (forward slashes included),
`GetDirnameA` returns the whole path; for a nonempty such path the
plugin-directory step therefore sets the DLL search directory to the full path
string instead of leaving it unchanged. -/
theorem no_separator_dirname_is_path (path : String)
    (hnosep : kPathSeparator ∉ path.toList) :
    GetDirnameA path = path ∧
    (path ≠ "" → ∀ s : String,
      IncludePluginDirectoryA path ⟨some s⟩ =
        some (s, ⟨some path⟩,
          [.getDllDirLen, .getDllDir (s.length + 1), .setDllDir path])) := by
  have hda : GetDirnameA path = path := by
    unfold GetDirnameA FindLastPathSeparatorA
    rw [firstSepIdx_eq_none _ hnosep]
  refine ⟨hda, fun hne s => ?_⟩
  rw [IncludePluginDirectoryA_some, if_neg (by rw [hda]; exact hne), hda]

/-- Witness for C9: a forward-slash-only path is used whole as the new DLL
search directory. -/
theorem no_separator_dirname_is_path_witness :
    GetDirnameA "lib/sub.so" = "lib/sub.so" ∧
    IncludePluginDirectoryA "lib/sub.so" ⟨some ""⟩ =
      some ("", ⟨some "lib/sub.so"⟩,
        [.getDllDirLen, .getDllDir 1, .setDllDir "lib/sub.so"]) := by
  have h := no_separator_dirname_is_path "lib/sub.so" (by decide)
  exact ⟨h.1, h.2 (by decide) ""⟩

/-- C10: after `ExcludeCurrentDirectory` has run, the reported
search-directory length is at least 1, and whenever that length is at least 1
the `&lpBuffer.front()` access inside `IncludePluginDirectoryA` is on a
nonempty buffer (the modelled undefined-behaviour case is unreachable). -/
theorem include_buffer_access_safe (path : String) (st : OSState) :
    1 ≤ getDllDirectoryLen ((ExcludeCurrentDirectory st).1.dllDir) ∧
    (∀ st2 : OSState, 1 ≤ getDllDirectoryLen st2.dllDir →
      (IncludePluginDirectoryA path st2).isSome = true) := by
  constructor
  · rw [ExcludeCurrentDirectory_fst]
    simp [getDllDirectoryLen]
  · intro st2 h2
    obtain ⟨d⟩ := st2
    cases d with
    | none => simp [getDllDirectoryLen] at h2
    | some s =>
      rw [IncludePluginDirectoryA_some]
      split <;> rfl

/-- Witness for C10: the saved-directory buffer access is safe in the state
the exclusion step leaves behind. -/
theorem include_buffer_access_safe_witness :
    (IncludePluginDirectoryA "x" ⟨some ""⟩).isSome = true :=
  (include_buffer_access_safe "x" ⟨none⟩).2 ⟨some ""⟩ (by decide)

end InferenceEngine
